import Mathlib

/-!
Verification development for the C-faculties chatbot repository.

The query-understanding pipeline of `chatbot.py` (class `FAQChatbot`) is
embedded as executable Lean functions over an explicit database snapshot,
together with the intent dispatch of `chatbot_service.py` (class
`ChatbotService`, modelled at the level of which handler fires) and the
routing of `chatbot_semantic.py` (class `SemanticChatbotService`, with the
floating-point sentence-embedding nearest-neighbour search abstracted as an
input, since it is not shallow-embeddable).

The messages of `chatbot.py` are reproduced byte-for-byte; note that the
repository file stores its emoji double-encoded (mojibake), e.g. the
calendar emoji appears as the four code points U+00F0 U+0178 U+201C U+2026,
and those exact code points are used here.
-/

set_option maxRecDepth 65536

/-! ## Python string primitives -/

/-- Whitespace for Python `str.split()` / `str.strip()` / regex `\s`. -/
def pySpace (c : Char) : Bool :=
  c == ' ' || c == '\t' || c == '\n' || c == '\r' || c.toNat == 11 || c.toNat == 12

/-- Python `str.lower()` (ASCII letters; the chatbot data is ASCII). -/
def pyLower (s : String) : String :=
  String.mk (s.toList.map Char.toLower)

/-- Python `str.strip()`. -/
def pyStrip (s : String) : String :=
  String.mk ((((s.toList.dropWhile pySpace).reverse).dropWhile pySpace).reverse)

/-- Is `sub` a contiguous sublist of the second argument? -/
def listInfixOf (sub : List Char) : List Char → Bool
  | [] => sub.isEmpty
  | c :: t => sub.isPrefixOf (c :: t) || listInfixOf sub t

/-- Python substring test `sub in s`. -/
def strContains (s sub : String) : Bool :=
  listInfixOf sub.toList s.toList

/-- Python `s.startswith(pre)`. -/
def pyStartsWith (s pre : String) : Bool :=
  pre.toList.isPrefixOf s.toList

/-- Helper for `pySplit`: split on whitespace runs, dropping empty pieces. -/
def splitWsAux : List Char → List Char → List String
  | [], acc => if acc.isEmpty then [] else [String.mk acc.reverse]
  | c :: t, acc =>
    if pySpace c then
      if acc.isEmpty then splitWsAux t [] else String.mk acc.reverse :: splitWsAux t []
    else splitWsAux t (c :: acc)

/-- Python `str.split()` with no separator argument. -/
def pySplit (s : String) : List String :=
  splitWsAux s.toList []

/-- Python `str.capitalize()`: first character upper-cased, the rest lower-cased. -/
def pyCapitalize (s : String) : String :=
  match s.toList with
  | [] => ""
  | c :: r => String.mk (c.toUpper :: r.map Char.toLower)

/-- Helper for `pyTitle`, carrying whether the previous character was a letter. -/
def pyTitleAux : Bool → List Char → List Char
  | _, [] => []
  | prevAlpha, c :: t =>
    (if c.isAlpha then (if prevAlpha then c.toLower else c.toUpper) else c)
      :: pyTitleAux c.isAlpha t

/-- Python `str.title()` (ASCII). -/
def pyTitle (s : String) : String :=
  String.mk (pyTitleAux false s.toList)

/-- Python `s.replace("-", "").replace(" ", "")`: removal of hyphens and blanks. -/
def stripChars (s : String) : String :=
  String.mk (s.toList.filter (fun c => !(c == '-' || c == ' ')))

/-- Python `s.replace("_", " ")` (single-character substitution). -/
def underscoreToSpace (s : String) : String :=
  String.mk (s.toList.map (fun c => if c == '_' then ' ' else c))

/-- First-occurrence deduplication, the semantics of building a Python `set`
or insertion-ordered `dict` keyed by the listed value. -/
def dedupKeepFirst [DecidableEq α] : List α → List α
  | [] => []
  | a :: t => a :: dedupKeepFirst (t.filter (fun b => decide (b ≠ a)))
termination_by l => l.length
decreasing_by
  simp only [List.length_cons]
  exact Nat.lt_succ_of_le (List.length_filter_le _ _)

/-- Stable insertion used by `sortByKey` (the element goes before the first
strictly larger key, so equal keys keep their original order, as Python
`sorted` and SQL `ORDER BY` on the stored order do). -/
def insertByKey (key : α → Nat) (a : α) : List α → List α
  | [] => [a]
  | b :: t => if key a ≤ key b then a :: b :: t else b :: insertByKey key a t

/-- Stable ascending sort by a numeric key. -/
def sortByKey (key : α → Nat) : List α → List α
  | [] => []
  | a :: t => insertByKey key a (sortByKey key t)

/-! ## A small backtracking regex engine

Enough of Python `re` to compile, by hand, the fixed patterns of the
chatbot verbatim: literals, `\s*`, `\s+`, a capturing `(\d+)`, `(?:...)?,`
alternation and concatenation.  `runs` enumerates the possible matches of a
pattern at the head of the input in Python's backtracking priority order
(alternatives left to right, greedy repetition longest first), and
`reSearchAux` scans start positions left to right, exactly `re.search`. -/

inductive RE where
  | lit (s : List Char)
  | ws0
  | ws1
  | digits
  | opt (r : RE)
  | seq (a b : RE)
  | alt (a b : RE)

/-- Numeric value of a digit string, the `int(...)` of a regex group. -/
def digitsToNat (l : List Char) : Nat :=
  l.foldl (fun acc c => 10 * acc + (c.toNat - 48)) 0

/-- All matches of a pattern at the head of `cs`, in priority order; each
match yields the captured `(\d+)` value, when one fired, and the rest of the
input. -/
def runs : RE → List Char → List (Option Nat × List Char)
  | .lit s, cs => if s.isPrefixOf cs then [(none, cs.drop s.length)] else []
  | .ws0, cs =>
    let n := (cs.takeWhile pySpace).length
    (List.range (n + 1)).reverse.map (fun k => (none, cs.drop k))
  | .ws1, cs =>
    let n := (cs.takeWhile pySpace).length
    (List.range n).reverse.map (fun k => (none, cs.drop (k + 1)))
  | .digits, cs =>
    let n := (cs.takeWhile Char.isDigit).length
    (List.range n).reverse.map
      (fun k => (some (digitsToNat (cs.take (k + 1))), cs.drop (k + 1)))
  | .opt r, cs => runs r cs ++ [(none, cs)]
  | .seq a b, cs =>
    (runs a cs).flatMap
      (fun p => (runs b p.2).map (fun q => (p.1 <|> q.1, q.2)))
  | .alt a b, cs => runs a cs ++ runs b cs

/-- `re.search`: try every start position left to right, returning the
capture of the first (highest-priority) match found. -/
def reSearchAux (r : RE) : List Char → Option (Option Nat)
  | [] =>
    match (runs r []).head? with
    | some p => some p.1
    | none => none
  | c :: t =>
    match (runs r (c :: t)).head? with
    | some p => some p.1
    | none => reSearchAux r t

/-- `re.search` over a string, extracting the digit group.  Every pattern
used below has a mandatory `(\d+)` group in each alternative, so the
default 0 is never taken. -/
def reSearchNum (r : RE) (s : String) : Option Nat :=
  (reSearchAux r s.toList).map (fun c => c.getD 0)

/-- Python word character, for `\b`: `[A-Za-z0-9_]`. -/
def isWordChar (c : Char) : Bool :=
  c.isAlphanum || c == '_'

/-- Does `code` occur in the input at the current position with word
boundaries on both sides?  `prev` is the character before the current
position, if any. -/
def wordBoundedHere (prev : Option Char) (code cs : List Char) : Bool :=
  (match prev with
   | none => true
   | some p => !isWordChar p) &&
  code.isPrefixOf cs &&
  (match (cs.drop code.length).head? with
   | none => true
   | some c => !isWordChar c)

/-- Scan of `re.search(r'\b' + code + r'\b', q)` for a code made of word
characters: some position carries a word-bounded occurrence. -/
def wordBoundedAux (prev : Option Char) (code : List Char) : List Char → Bool
  | [] => wordBoundedHere prev code []
  | c :: t => wordBoundedHere prev code (c :: t) || wordBoundedAux (some c) code t

/-- `re.search(r'\b' + code + r'\b', q) is not None`. -/
def wordBoundedSub (code q : String) : Bool :=
  wordBoundedAux none code.toList q.toList

/-! ## Data model (`models.py`), restricted to the fields the chatbot reads -/

/-- A calendar date; `ord` is a day count aligned so that
`weekday = ord % 7` with Monday = 0, matching Python `date.weekday()`. -/
structure PyDate where
  ord : Nat
deriving DecidableEq

structure Faculty where
  id : Nat
  name : String
  email : String
  phone : String
  department : Option String
  experience : Option String
  isActive : Bool
deriving DecidableEq

structure Department where
  id : Nat
  name : String
  code : String
deriving DecidableEq

structure TimetableEntry where
  id : Nat
  facultyId : Nat
  departmentId : Nat
  day : String
  period : Nat
  classType : String
deriving DecidableEq

structure DailyEntry where
  id : Nat
  facultyId : Nat
  departmentId : Nat
  date : PyDate
  period : Nat
  classType : String
  syllabusId : Option Nat
  ownContentTitle : Option String
  isAbsent : Bool
deriving DecidableEq

structure Syllabus where
  id : Nat
  sessionNumber : Nat
  sessionTitle : String
  unit : Nat
  topics : Option String
  pptUrl : Option String
deriving DecidableEq

structure LabProgram where
  id : Nat
  programNumber : Nat
  programTitle : String
  description : Option String
  moodleUrl : Option String
deriving DecidableEq

structure PeriodTiming where
  period : Nat
  displayTime : String
deriving DecidableEq

structure FAQ where
  question : String
  answer : String
  isActive : Bool
deriving DecidableEq

/-- The read-only data snapshot the chatbot queries. -/
structure Db where
  faculties : List Faculty
  departments : List Department
  timetable : List TimetableEntry
  dailyEntries : List DailyEntry
  syllabus : List Syllabus
  labPrograms : List LabProgram
  periodTimings : List PeriodTiming
  faqs : List FAQ
deriving DecidableEq

/-- Truthiness of an optional string column in Python (`None` and `""` are falsy). -/
def optTruthy : Option String → Bool
  | none => false
  | some s => !(s == "")

/-- Python `x or default` for an optional string column. -/
def optOr (o : Option String) (dflt : String) : String :=
  match o with
  | some s => if s == "" then dflt else s
  | none => dflt

/-- Foreign-key lookup used to model the SQL inner join to `faculties`. -/
def lookupFaculty (db : Db) (fid : Nat) : Option Faculty :=
  db.faculties.find? (fun f => f.id == fid)

/-- Foreign-key lookup used to model the SQL inner join to `departments`. -/
def lookupDept (db : Db) (did : Nat) : Option Department :=
  db.departments.find? (fun d => d.id == did)

/-- Foreign-key lookup for the outer join to `syllabus`. -/
def lookupSyllabus (db : Db) (sid : Nat) : Option Syllabus :=
  db.syllabus.find? (fun s => s.id == sid)

/-- `db.query(TimetableEntry, Faculty, Department).join(...).join(...)`:
each timetable row paired with its faculty and department (inner joins). -/
def joinTFD (db : Db) : List (TimetableEntry × Faculty × Department) :=
  db.timetable.filterMap
    (fun e => (lookupFaculty db e.facultyId).bind
      (fun f => (lookupDept db e.departmentId).map (fun d => (e, f, d))))

/-- Same join restricted to rows satisfying a filter on the timetable entry,
then `ORDER BY period` (stable on the stored order). -/
def joinTFDWhere (db : Db) (p : TimetableEntry → Bool) :
    List (TimetableEntry × Faculty × Department) :=
  sortByKey (fun x => x.1.period)
    ((db.timetable.filter p).filterMap
      (fun e => (lookupFaculty db e.facultyId).bind
        (fun f => (lookupDept db e.departmentId).map (fun d => (e, f, d)))))

/-- Timetable rows joined only to their department, filtered and ordered by
period (`_get_faculty_today_schedule`'s query shape). -/
def joinTDWhere (db : Db) (p : TimetableEntry → Bool) :
    List (TimetableEntry × Department) :=
  sortByKey (fun x => x.1.period)
    ((db.timetable.filter p).filterMap
      (fun e => (lookupDept db e.departmentId).map (fun d => (e, d))))

/-! ## Mojibake message prefixes, byte-for-byte from `chatbot.py` -/

def emCal : String := "ðŸ“…"
def emBul : String := "â€¢"
def emLab : String := "ðŸ”¬"
def emBook : String := "ðŸ“–"
def emMemo : String := "ðŸ“"
def emCheck : String := "âœ…"
def emNoEntry : String := "ðŸš«"
def emChart : String := "ðŸ“Š"
def emBooks : String := "ðŸ“š"
def emWave : String := "ðŸ‘‹"
def emThink : String := "ðŸ¤”"
def emPeople : String := "ðŸ‘¥"
def emBulb : String := "ðŸ’¡"

/-! ## `chatbot.py`: helpers -/

/-- The weekday names of `get_day_name`. -/
def pyDays : List String :=
  ["Monday", "Tuesday", "Wednesday", "Thursday", "Friday", "Saturday", "Sunday"]

/-- `get_day_name`: `days[d.weekday()]` (the index is `< 7`, so the default
of `getD` is never taken). -/
def getDayName (d : PyDate) : String :=
  pyDays.getD (d.ord % 7) ""

/-- `get_period_time(period, db)`: the `PeriodTiming` row when present,
otherwise the hard-coded fallback table. -/
def getPeriodTime (db : Db) (period : Nat) : String :=
  match db.periodTimings.find? (fun t => t.period == period) with
  | some t => t.displayTime
  | none =>
    if period == 1 then "08:00 AM - 08:45 AM"
    else if period == 2 then "08:45 AM - 09:30 AM"
    else if period == 3 then "09:45 AM - 10:30 AM"
    else if period == 4 then "10:30 AM - 11:15 AM"
    else if period == 5 then "11:15 AM - 12:00 PM"
    else if period == 6 then "01:00 PM - 01:45 PM"
    else if period == 7 then "01:45 PM - 02:30 PM"
    else if period == 8 then "02:30 PM - 03:15 PM"
    else if period == 9 then "03:30 PM - 04:15 PM"
    else "Unknown"

/-! ## `chatbot.py`: hand-compiled regular expressions -/

/-- `(?:st|nd|rd|th)` -/
def ordSufRE : RE :=
  .alt (.lit ['s', 't']) (.alt (.lit ['n', 'd']) (.alt (.lit ['r', 'd']) (.lit ['t', 'h'])))

/-- `(?:period\s*(\d+)|(\d+)(?:st|nd|rd|th)?\s*period|in\s+(?:the\s+)?(\d+)(?:st|nd|rd|th)?)`
from `_check_period_query`. -/
def periodRE : RE :=
  .alt (.seq (.lit "period".toList) (.seq .ws0 .digits))
    (.alt (.seq .digits (.seq (.opt ordSufRE) (.seq .ws0 (.lit "period".toList))))
      (.seq (.lit ['i', 'n'])
        (.seq .ws1 (.seq (.opt (.seq (.lit "the".toList) .ws1))
          (.seq .digits (.opt ordSufRE))))))

/-- `(?:lab|week|w)\s*(?:program)?\s*(\d+)` from step 12 of `process_question`. -/
def labRE : RE :=
  .seq (.alt (.lit "lab".toList) (.alt (.lit "week".toList) (.lit ['w'])))
    (.seq .ws0 (.seq (.opt (.lit "program".toList)) (.seq .ws0 .digits)))

/-- `(?:session|deck|ppt|slide)\s*(\d+)` from step 13 of `process_question`. -/
def sessionRE : RE :=
  .seq (.alt (.lit "session".toList)
      (.alt (.lit "deck".toList) (.alt (.lit "ppt".toList) (.lit "slide".toList))))
    (.seq .ws0 .digits)

/-! ## `chatbot.py`: fixed phrase sets and predicates -/

def greetingWords : List String :=
  ["hi", "hello", "hey", "good morning", "good afternoon", "good evening", "hii", "hiii"]

/-- Step 1: `question_lower == g or question_lower.startswith(g + " ")`. -/
def isGreeting (q : String) : Bool :=
  greetingWords.any (fun g => q == g || pyStartsWith q (g ++ " "))

/-- Step 2: `question_lower in ["help", "?", "commands", "what can you do"]`. -/
def isHelpCmd (q : String) : Bool :=
  ["help", "?", "commands", "what can you do"].contains q

def labPatterns : List String :=
  ["lab today", "today lab", "today's lab", "labs today",
   "who has lab", "who is taking lab", "lab class today",
   "lab schedule", "show lab", "lab classes"]

def theoryPatterns : List String :=
  ["theory today", "today theory", "today's theory",
   "who has theory", "who is taking theory", "theory class today",
   "theory schedule", "show theory", "theory classes"]

def schedulePatterns : List String :=
  ["show schedule", "today schedule", "schedule today", "today's schedule",
   "show classes", "classes today", "today's classes", "today classes",
   "who has class", "who is teaching", "teaching today", "all classes",
   "show timetable", "timetable today", "today's timetable",
   "show today", "today show", "schedule", "shedule",
   "c programming classes today", "what are the classes", "what classes",
   "c class today", "programming classes"]

def absentPatterns : List String :=
  ["who is absent", "absent today", "who's absent", "absent faculty",
   "not teaching", "no class today", "free today", "who is free",
   "who doesn't have class", "who does not have class"]

def summaryPatterns : List String :=
  ["today's summary", "todays summary", "summary today", "summary",
   "overview today", "today's overview", "daily summary", "day summary"]

def topicPatterns : List String :=
  ["topics today", "today topics", "topics covered", "what topics",
   "syllabus today", "topics being taught", "what is being taught",
   "what are being taught", "taught today"]

def listFacultyPatterns : List String :=
  ["list all faculty", "all faculty", "list faculty", "show faculty",
   "faculty list", "all faculties", "list all faculties", "list faculties",
   "c programming faculties", "c programming faculty", "programming faculty",
   "who are the faculty", "who are the faculties"]

def isGeneralScheduleQuery (q : String) : Bool :=
  schedulePatterns.any (fun p => strContains q p)

def isAbsentQuery (q : String) : Bool :=
  absentPatterns.any (fun p => strContains q p)

def isSummaryQuery (q : String) : Bool :=
  summaryPatterns.any (fun p => strContains q p)

def isTopicsQuery (q : String) : Bool :=
  topicPatterns.any (fun p => strContains q p)

def isListFacultyQuery (q : String) : Bool :=
  listFacultyPatterns.any (fun p => strContains q p)

/-! ## `chatbot.py`: handlers -/

/-- `_get_period_schedule`. -/
def getPeriodSchedule (db : Db) (period : Nat) (dayName : String) : String :=
  let entries := joinTFDWhere db (fun e => e.day == dayName && e.period == period)
  if entries.isEmpty then
    emCal ++ " No C Programming classes in **Period " ++ toString period ++
      "** on **" ++ dayName ++ "**."
  else
    emCal ++ " **Period " ++ toString period ++ " (" ++ getPeriodTime db period ++
      ") - " ++ dayName ++ ":**\n\n" ++
    String.join (entries.map (fun x =>
      emBul ++ " **" ++ x.2.1.name ++ "** - " ++ x.2.2.code ++ " (" ++ x.1.classType ++ ")\n")) ++
    "\n_Total: " ++ toString entries.length ++ " class(es) in this period_"

/-- `_check_period_query`. -/
def checkPeriodQuery (db : Db) (q dayName : String) : Option String :=
  match reSearchNum periodRE q with
  | some n => some (getPeriodSchedule db n dayName)
  | none => none

/-- The ascending list of distinct periods of a joined result set, i.e.
`sorted(period_classes.keys())` for the `defaultdict` grouped by period. -/
def sortedPeriods (entries : List (TimetableEntry × Faculty × Department)) : List Nat :=
  sortByKey (fun p => p) (dedupKeepFirst (entries.map (fun x => x.1.period)))

/-- `_get_day_schedule`. -/
def getDaySchedule (db : Db) (dayName : String) : String :=
  let entries := joinTFDWhere db (fun e => e.day == dayName)
  if entries.isEmpty then
    emCal ++ " No C Programming classes scheduled for **" ++ dayName ++ "**."
  else
    emCal ++ " **C Programming Classes for " ++ dayName ++ ":**\n\n" ++
    String.join ((sortedPeriods entries).map (fun p =>
      "**Period " ++ toString p ++ "** (" ++ getPeriodTime db p ++ "):\n" ++
      String.join ((entries.filter (fun x => x.1.period == p)).map (fun x =>
        "  " ++ emBul ++ " " ++ x.2.1.name ++ " - " ++ x.2.2.code ++
          " (" ++ x.1.classType ++ ")\n")) ++
      "\n"))

/-- The key/display pairs of `_check_day_query`'s `days` dict, in its
insertion (= iteration) order. -/
def dayPairs : List (String × String) :=
  [("monday", "Monday"), ("tuesday", "Tuesday"), ("wednesday", "Wednesday"),
   ("thursday", "Thursday"), ("friday", "Friday"), ("saturday", "Saturday"),
   ("sunday", "Sunday")]

/-- The `for day_key, day_name in days.items()` loop of `_check_day_query`. -/
def dayLoop (db : Db) (q : String) : List (String × String) → Option String
  | [] => none
  | kv :: rest =>
    if strContains q kv.1 then some (getDaySchedule db kv.2) else dayLoop db q rest

/-- `_check_day_query`. -/
def checkDayQuery (db : Db) (q : String) : Option String :=
  dayLoop db q dayPairs

/-- `_get_faculty_today_schedule`. -/
def getFacultyTodaySchedule (db : Db) (fac : Faculty) (dayName : String) : String :=
  let entries := joinTDWhere db (fun e => e.facultyId == fac.id && e.day == dayName)
  if entries.isEmpty then
    emCal ++ " **" ++ fac.name ++ "** has no classes scheduled for **" ++ dayName ++ "**."
  else
    emCal ++ " **" ++ fac.name ++ "'s Schedule for " ++ dayName ++ ":**\n\n" ++
    String.join (entries.map (fun x =>
      emBul ++ " **Period " ++ toString x.1.period ++ "** (" ++
        getPeriodTime db x.1.period ++ ") - " ++ x.2.code ++ " (" ++ x.1.classType ++ ")\n")) ++
    "\n_Total: " ++ toString entries.length ++ " class(es) today_"

/-- Does some part of the faculty name, longer than 2 characters, occur in
the question (the inner loop of `_check_faculty_name_query`)? -/
def facNameMatches (q : String) (f : Faculty) : Bool :=
  (pySplit (pyLower f.name)).any (fun part => decide (2 < part.length) && strContains q part)

/-- The `for faculty in faculties` loop of `_check_faculty_name_query`. -/
def facultyScanLoop (db : Db) (q dayName : String) : List Faculty → Option String
  | [] => none
  | f :: rest =>
    if facNameMatches q f then some (getFacultyTodaySchedule db f dayName)
    else facultyScanLoop db q dayName rest

/-- `_check_faculty_name_query` (over the active faculties). -/
def checkFacultyNameQuery (db : Db) (q dayName : String) : Option String :=
  facultyScanLoop db q dayName (db.faculties.filter (fun f => f.isActive))

/-- `_get_department_schedule`. -/
def getDepartmentSchedule (db : Db) (deptCode dayName : String) : String :=
  let entries := sortByKey (fun x => x.1.period)
    ((joinTFD db).filter (fun x => x.2.2.code == deptCode && x.1.day == dayName))
  if entries.isEmpty then
    emCal ++ " No C Programming classes for **" ++ deptCode ++ "** on **" ++ dayName ++ "**."
  else
    emCal ++ " **" ++ deptCode ++ " Schedule for " ++ dayName ++ ":**\n\n" ++
    String.join (entries.map (fun x =>
      emBul ++ " **Period " ++ toString x.1.period ++ "** (" ++
        getPeriodTime db x.1.period ++ ") - " ++ x.2.1.name ++ " (" ++ x.1.classType ++ ")\n"))

/-- The hyphenated department codes of `_check_department_query`. -/
def hyphenDeptCodes : List String :=
  ["AIDS-A", "AIDS-B", "AIML-A", "AIML-B", "CSE-A", "CSE-B",
   "ECE-A", "ECE-B", "IT-A", "IT-B"]

/-- The single-word department codes of `_check_department_query`. -/
def singleDeptCodes : List String :=
  ["CSBS", "CYS", "MECH", "RA"]

/-- First loop of `_check_department_query`: normalized substring containment
of the hyphenated codes in the normalized question `qn`. -/
def deptHyphenLoop (db : Db) (dayName qn : String) : List String → Option String
  | [] => none
  | code :: rest =>
    if strContains qn (stripChars (pyLower code)) then
      some (getDepartmentSchedule db code dayName)
    else deptHyphenLoop db dayName qn rest

/-- Second loop of `_check_department_query`: word-boundary regex match of the
single-word codes against the raw (lowercased) question. -/
def deptSingleLoop (db : Db) (dayName q : String) : List String → Option String
  | [] => none
  | code :: rest =>
    if wordBoundedSub (pyLower code) q then
      some (getDepartmentSchedule db code dayName)
    else deptSingleLoop db dayName q rest

/-- `_check_department_query`. -/
def checkDepartmentQuery (db : Db) (q dayName : String) : Option String :=
  let qn := pyLower (stripChars q)
  match deptHyphenLoop db dayName qn hyphenDeptCodes with
  | some r => some r
  | none => deptSingleLoop db dayName q singleDeptCodes

/-- `_get_class_type_schedule`. -/
def getClassTypeSchedule (db : Db) (classType dayName : String) : String :=
  let entries := joinTFDWhere db (fun e => e.day == dayName && e.classType == classType)
  let typeEmoji :=
    if classType == "lab" then emLab else if classType == "theory" then emBook else emMemo
  let typeTitle := pyTitle (underscoreToSpace classType)
  if entries.isEmpty then
    typeEmoji ++ " No **" ++ typeTitle ++ "** classes scheduled for **" ++ dayName ++ "**."
  else
    typeEmoji ++ " **" ++ typeTitle ++ " Classes for " ++ dayName ++ ":**\n\n" ++
    String.join ((sortedPeriods entries).map (fun p =>
      "**Period " ++ toString p ++ "** (" ++ getPeriodTime db p ++ "):\n" ++
      String.join ((entries.filter (fun x => x.1.period == p)).map (fun x =>
        "  " ++ emBul ++ " " ++ x.2.1.name ++ " - " ++ x.2.2.code ++ "\n")) ++
      "\n")) ++
    "_Total: " ++ toString entries.length ++ " " ++ classType ++ " class(es) today_"

/-- `_check_lab_query`. -/
def checkLabQuery (db : Db) (q dayName : String) : Option String :=
  if labPatterns.any (fun p => strContains q p) then
    some (getClassTypeSchedule db "lab" dayName)
  else none

/-- `_check_theory_query`. -/
def checkTheoryQuery (db : Db) (q dayName : String) : Option String :=
  if theoryPatterns.any (fun p => strContains q p) then
    some (getClassTypeSchedule db "theory" dayName)
  else none

/-- `_get_absent_faculty`: daily entries of today flagged absent, joined to
their faculty, then deduplicated by faculty id in first-occurrence order
(the insertion-ordered `absent_faculty` dict). -/
def getAbsentFaculty (db : Db) (today : PyDate) (dayName : String) : String :=
  let absentPairs := (db.dailyEntries.filter (fun e => e.date == today && e.isAbsent)).filterMap
    (fun e => (lookupFaculty db e.facultyId).map (fun f => (e, f)))
  if absentPairs.isEmpty then
    emCheck ++ " **No absentees today (" ++ dayName ++ ")!**\n\nAll faculty members are present."
  else
    let fs := dedupKeepFirst (absentPairs.map (fun x => x.2.id)) |>.filterMap (lookupFaculty db)
    emNoEntry ++ " **Absent Faculty on " ++ dayName ++ ":**\n\n" ++
    String.join (fs.map (fun f =>
      emBul ++ " **" ++ f.name ++ "** (" ++ optOr f.department "N/A" ++ ")\n")) ++
    "\n_Total: " ++ toString fs.length ++ " faculty member(s) absent today_"

/-- `_get_today_summary`.  `DISTINCT` counts are modelled by
first-occurrence deduplication; `total_faculty - faculty_teaching` is Python
integer subtraction, hence `Int`. -/
def getTodaySummary (db : Db) (dayName : String) : String :=
  let totalEntries := (db.timetable.filter (fun e => e.day == dayName)).length
  let theoryCount :=
    (db.timetable.filter (fun e => e.day == dayName && e.classType == "theory")).length
  let labCount :=
    (db.timetable.filter (fun e => e.day == dayName && e.classType == "lab")).length
  let facultyTeaching := (dedupKeepFirst
    ((db.faculties.filter (fun f =>
        db.timetable.any (fun e => e.facultyId == f.id && e.day == dayName))).map
      (fun f => f.id))).length
  let totalFaculty := (db.faculties.filter (fun f => f.isActive)).length
  let deptsWithClasses := (dedupKeepFirst
    ((db.timetable.filter (fun e => e.day == dayName)).map (fun e => e.departmentId))).length
  emChart ++ " **Today's Summary (" ++ dayName ++ "):**\n\n" ++
  "**Classes:**\n" ++
  emBul ++ " Total Classes: **" ++ toString totalEntries ++ "**\n" ++
  emBul ++ " Theory Classes: **" ++ toString theoryCount ++ "**\n" ++
  emBul ++ " Lab Classes: **" ++ toString labCount ++ "**\n\n" ++
  "**Faculty:**\n" ++
  emBul ++ " Teaching Today: **" ++ toString facultyTeaching ++ "** of " ++
    toString totalFaculty ++ "\n" ++
  emBul ++ " Free Today: **" ++ toString ((totalFaculty : Int) - (facultyTeaching : Int)) ++
    "**\n\n" ++
  "**Departments:**\n" ++
  emBul ++ " With Classes: **" ++ toString deptsWithClasses ++ "**\n\n" ++
  "_Ask 'who has class today' or 'who is absent today' for details_"

/-- `_get_topics_today`: today's daily entries joined to faculty and
department (inner) and syllabus (outer), else the syllabus overview. -/
def getTopicsToday (db : Db) (today : PyDate) (dayName : String) : String :=
  let entries := (db.dailyEntries.filter (fun e => e.date == today)).filterMap
    (fun e => (lookupFaculty db e.facultyId).bind
      (fun f => (lookupDept db e.departmentId).map
        (fun d => (e, f, d, e.syllabusId.bind (lookupSyllabus db)))))
  if entries.isEmpty then
    let syl := (sortByKey (fun s => s.sessionNumber) db.syllabus).take 5
    if !syl.isEmpty then
      emBooks ++ " **Topics Overview (No entries for " ++ dayName ++ " yet):**\n\n" ++
      "Faculty members haven't logged their sessions yet. Here are upcoming topics:\n\n" ++
      String.join (syl.map (fun s =>
        emBul ++ " **Session " ++ toString s.sessionNumber ++ ":** " ++
          s.sessionTitle ++ "\n")) ++
      "\n_Ask 'session [number]' for detailed topic info._"
    else "No syllabus information available."
  else
    emBooks ++ " **Topics Covered on " ++ dayName ++ ":**\n\n" ++
    String.join (entries.map (fun x =>
      emBul ++ " **" ++ x.2.1.name ++ "** (" ++ x.2.2.1.code ++ "):\n" ++
      (match x.2.2.2 with
       | some s => "  Session " ++ toString s.sessionNumber ++ ": " ++ s.sessionTitle ++ "\n"
       | none =>
         match x.1.ownContentTitle with
         | some t =>
           if t == "" then "  " ++ pyCapitalize x.1.classType ++ " class\n"
           else "  " ++ t ++ "\n"
         | none => "  " ++ pyCapitalize x.1.classType ++ " class\n")))

/-- `_list_all_faculties`. -/
def listAllFaculties (db : Db) : String :=
  let fs := db.faculties.filter (fun f => f.isActive)
  if fs.isEmpty then "No faculties found."
  else
    emPeople ++ " **All Faculties (" ++ toString fs.length ++ "):**\n\n" ++
    String.join (fs.enum.map (fun x =>
      toString (x.1 + 1) ++ ". **" ++ x.2.name ++ "** - " ++
        optOr x.2.department "N/A" ++ "\n"))

/-- `_get_lab_program`. -/
def getLabProgram (db : Db) (weekNum : Nat) : String :=
  match db.labPrograms.find? (fun p => p.programNumber == weekNum) with
  | none => "No lab program found for week " ++ toString weekNum ++ "."
  | some p =>
    emLab ++ " **Lab Program - Week " ++ toString weekNum ++ ":**\n\n" ++
    "**Title:** " ++ p.programTitle ++ "\n" ++
    (if optTruthy p.description then "**Description:** " ++ p.description.getD "" ++ "\n"
     else "") ++
    (if optTruthy p.moodleUrl then "**Moodle:** " ++ p.moodleUrl.getD "" ++ "\n" else "")

/-- `_get_session_ppt`. -/
def getSessionPpt (db : Db) (sessionNum : Nat) : String :=
  match db.syllabus.find? (fun s => s.sessionNumber == sessionNum) with
  | none => "No session " ++ toString sessionNum ++ " found."
  | some s =>
    emChart ++ " **Session " ++ toString sessionNum ++ ":**\n\n" ++
    "**Topic:** " ++ s.sessionTitle ++ "\n" ++
    "**Unit:** " ++ toString s.unit ++ "\n" ++
    (if optTruthy s.topics then "**Subtopics:** " ++ s.topics.getD "" ++ "\n" else "") ++
    (if optTruthy s.pptUrl then "**PPT Link:** " ++ s.pptUrl.getD "" ++ "\n"
     else "**PPT:** Not available yet\n")

/-- The `faculty_seen` loop of `_get_schedule_response`: renders one line per
faculty on their first row, collecting the periods of that faculty from the
whole result set; returns the rendered lines and the seen ids. -/
def schedRespLoop (entries : List (TimetableEntry × Faculty × Department)) :
    List (TimetableEntry × Faculty × Department) → List Nat → String × List Nat
  | [], seen => ("", seen)
  | x :: rest, seen =>
    if seen.contains x.2.1.id then schedRespLoop entries rest seen
    else
      let periods := sortByKey (fun p => p)
        ((entries.filter (fun y => y.2.1.id == x.2.1.id)).map (fun y => y.1.period))
      let line := emBul ++ " **" ++ x.2.1.name ++ "** (" ++ x.2.2.code ++ ") - Period " ++
        String.intercalate ", " (periods.map toString) ++ "\n"
      let r := schedRespLoop entries rest (seen ++ [x.2.1.id])
      (line ++ r.1, r.2)

/-- `_get_schedule_response` (the `question` argument is unused by the source
body as well). -/
def getScheduleResponse (db : Db) (dayName : String) (question : String) : String :=
  let entries := joinTFDWhere db (fun e => e.day == dayName)
  if entries.isEmpty then
    emCal ++ " No C Programming classes scheduled for **" ++ dayName ++ "**."
  else
    let r := schedRespLoop entries entries []
    emCal ++ " **C Programming Classes for " ++ dayName ++ ":**\n\n" ++ r.1 ++
    "\n_Total: " ++ toString r.2.length ++ " faculty members teaching today_"

/-! ## `chatbot.py`: FAQ search (`_search_faqs`) -/

/-- The stop-word set of `_search_faqs`. -/
def faqStopWords : List String :=
  ["the", "what", "how", "are", "is", "can", "do", "for", "in", "on", "at",
   "to", "a", "an", "of", "and", "or", "but", "who", "when", "where", "why",
   "this", "that", "i", "you", "we", "they", "it", "my", "your"]

/-- `{w for w in set(s.lower().split()) if len(w) > 2 and w not in stop_words}`. -/
def faqFilterWords (s : String) : List String :=
  (dedupKeepFirst (pySplit (pyLower s))).filter
    (fun w => decide (2 < w.length) && !(faqStopWords.contains w))

/-- The per-entry score of `_search_faqs`: 1000 for an exact match of the
lowercased texts, 500 for substring containment either way, otherwise ten
per common filtered token plus five per filtered query token occurring in
the answer text. -/
def faqScore (q : String) (f : FAQ) : Nat :=
  let fqL := pyLower f.question
  let faL := pyLower f.answer
  if q == fqL then 1000
  else if strContains q fqL || strContains fqL q then 500
  else
    10 * ((faqFilterWords q).filter (fun w => (faqFilterWords fqL).contains w)).length +
    5 * ((faqFilterWords q).filter (fun w => strContains faL w)).length

/-- The `best_match`/`best_score` loop of `_search_faqs` (`score > best_score`
keeps the earlier entry on ties). -/
def faqLoop (q : String) : List FAQ → Option FAQ → Nat → Option FAQ × Nat
  | [], best, bs => (best, bs)
  | f :: rest, best, bs =>
    if bs < faqScore q f then faqLoop q rest (some f) (faqScore q f)
    else faqLoop q rest best bs

/-- The rendering of a matched FAQ entry. -/
def renderFaq (f : FAQ) : String :=
  emBulb ++ " **" ++ f.question ++ "**\n\n" ++ f.answer

/-- `_search_faqs` over an already-fetched catalog: best-scoring entry if the
best score reaches 10, else absent. -/
def searchFaqs (q : String) (faqs : List FAQ) : Option String :=
  if faqs.isEmpty then none
  else
    match faqLoop q faqs none 0 with
    | (some f, bs) => if 10 ≤ bs then some (renderFaq f) else none
    | (none, _) => none

/-- `_search_faqs` including its own fetch of the active FAQs. -/
def searchFaqsDb (db : Db) (q : String) : Option String :=
  searchFaqs q (db.faqs.filter (fun f => f.isActive))

/-! ## `chatbot.py`: fixed responses -/

/-- `_greeting_response`. -/
def greetingResponse : String :=
  emWave ++ " **Hello! Welcome to C Programming Assistant!**\n\nI can help you with:\n" ++
  emBul ++ " Today's class schedule\n" ++
  emBul ++ " Faculty information\n" ++
  emBul ++ " Lab programs\n" ++
  emBul ++ " Session/PPT materials\n" ++
  emBul ++ " FAQs\n\nType **help** to see all commands!"

/-- `_help_response`. -/
def helpResponse : String :=
  emBooks ++ " **C Programming Chatbot - Help**\n\n**Schedule Queries:**\n" ++
  emBul ++ " \"Who has class today?\"\n" ++
  emBul ++ " \"Today's schedule\"\n" ++
  emBul ++ " \"Show classes\"\n" ++
  emBul ++ " \"[Faculty name]\" - e.g., \"Sathish\" or \"Priya\"\n" ++
  emBul ++ " \"period 3\" or \"3rd period\"\n" ++
  emBul ++ " \"Monday schedule\" or \"Tuesday classes\"\n\n**Lab/Theory Queries:**\n" ++
  emBul ++ " \"Lab today\" or \"Who has lab today?\"\n" ++
  emBul ++ " \"Theory classes today\"\n" ++
  emBul ++ " \"[Department] schedule\" - e.g., \"AIDS-A\", \"CSE-B\"\n\n**Faculty Queries:**\n" ++
  emBul ++ " \"List all faculty\"\n" ++
  emBul ++ " \"Who teaches AIDS-A?\"\n\n**Lab Programs:**\n" ++
  emBul ++ " \"Lab program week 3\"\n" ++
  emBul ++ " \"Week 5 lab\"\n\n**Session/PPT:**\n" ++
  emBul ++ " \"Session 3 PPT\"\n" ++
  emBul ++ " \"Deck 5\"\n\n**Topics:**\n" ++
  emBul ++ " \"Topics today\"\n\n**General:**\n" ++
  emBul ++ " Ask any question about C Programming!"

/-- `_default_response`. -/
def defaultResponse : String :=
  emThink ++ " I couldn't find an answer to that question.\n\nTry asking about:\n" ++
  emBul ++ " Today's schedule\n" ++
  emBul ++ " Faculty information\n" ++
  emBul ++ " Lab programs (e.g., \"week 3 lab\")\n" ++
  emBul ++ " Session materials (e.g., \"session 5 ppt\")\n\n" ++
  "Or type **help** for more options!"

/-! ## `chatbot.py`: the dispatcher `process_question` -/

/-- The rule cascade of `process_question`, applied to the already
normalized (`lower().strip()`) question. -/
def processQuestionCore (db : Db) (today : PyDate) (q : String) : String :=
  let dayName := getDayName today
  if isGreeting q then greetingResponse
  else if isHelpCmd q then helpResponse
  else
    match checkFacultyNameQuery db q dayName with
    | some r => r
    | none =>
      match checkDepartmentQuery db q dayName with
      | some r => r
      | none =>
        match checkLabQuery db q dayName with
        | some r => r
        | none =>
          match checkTheoryQuery db q dayName with
          | some r => r
          | none =>
            if isTopicsQuery q then getTopicsToday db today dayName
            else if isAbsentQuery q then getAbsentFaculty db today dayName
            else if isSummaryQuery q then getTodaySummary db dayName
            else if isGeneralScheduleQuery q then getScheduleResponse db dayName q
            else if isListFacultyQuery q then listAllFaculties db
            else
              match reSearchNum labRE q with
              | some n => getLabProgram db n
              | none =>
                match reSearchNum sessionRE q with
                | some n => getSessionPpt db n
                | none =>
                  match checkPeriodQuery db q dayName with
                  | some r => r
                  | none =>
                    match checkDayQuery db q with
                    | some r => r
                    | none =>
                      match searchFaqsDb db q with
                      | some r => r
                      | none => defaultResponse

/-- `FAQChatbot.process_question` (`question_lower = question.lower().strip()`,
then the cascade). -/
def processQuestion (db : Db) (today : PyDate) (question : String) : String :=
  processQuestionCore db today (pyStrip (pyLower question))

/-! ## `chatbot_service.py` (`ChatbotService.process_question`)

This legacy dispatcher is embedded at the level of which handler fires with
which extracted arguments; the handler bodies only render database rows and
play no part in any claim about this module. -/

/-- The handler invocations reachable from `ChatbotService.process_question`. -/
inductive SvcAction where
  | absentToday
  | classesToday
  | fullSchedule
  | labProgram (weekNum : Nat)
  | sessionPpt (sessionNum : Nat)
  | facultyByDept (code : String)
  | listFaculties
  | recentEntries
  | daySchedule (day : String)
  | helpMsg
  | greet
  | notUnderstood
deriving DecidableEq

/-- `lab\s*(?:program)?\s*(?:for)?\s*week\s*(\d+)` -/
def svcLab1RE : RE :=
  .seq (.lit "lab".toList) (.seq .ws0 (.seq (.opt (.lit "program".toList))
    (.seq .ws0 (.seq (.opt (.lit "for".toList))
      (.seq .ws0 (.seq (.lit "week".toList) (.seq .ws0 .digits)))))))

/-- `week\s*(\d+)\s*lab` -/
def svcLab2RE : RE :=
  .seq (.lit "week".toList) (.seq .ws0 (.seq .digits (.seq .ws0 (.lit "lab".toList))))

/-- `w(\d+)\s*lab` -/
def svcLab3RE : RE :=
  .seq (.lit ['w']) (.seq .digits (.seq .ws0 (.lit "lab".toList)))

/-- `inlab\s*(\d+)` -/
def svcLab4RE : RE :=
  .seq (.lit "inlab".toList) (.seq .ws0 .digits)

/-- `lab\s*(\d+)` -/
def svcLab5RE : RE :=
  .seq (.lit "lab".toList) (.seq .ws0 .digits)

/-- `session\s*(\d+)` -/
def svcSes1RE : RE := .seq (.lit "session".toList) (.seq .ws0 .digits)

/-- `ses\s*(\d+)` -/
def svcSes2RE : RE := .seq (.lit "ses".toList) (.seq .ws0 .digits)

/-- `deck\s*(\d+)` -/
def svcSes3RE : RE := .seq (.lit "deck".toList) (.seq .ws0 .digits)

/-- `ppt\s*(?:for)?\s*(?:session)?\s*(\d+)` -/
def svcSes4RE : RE :=
  .seq (.lit "ppt".toList) (.seq .ws0 (.seq (.opt (.lit "for".toList))
    (.seq .ws0 (.seq (.opt (.lit "session".toList)) (.seq .ws0 .digits)))))

/-- `slide\s*(\d+)` -/
def svcSes5RE : RE := .seq (.lit "slide".toList) (.seq .ws0 .digits)

/-- `week\s*(\d+)` (the Moodle intent) -/
def svcWeekRE : RE := .seq (.lit "week".toList) (.seq .ws0 .digits)

/-- The full department-code catalog shared by `chatbot_service.py` (intent 5)
and `chatbot_semantic.py` (`get_faculty_by_dept`). -/
def svcDeptCodes : List String :=
  ["AIDS-A", "AIDS-B", "AIML-A", "AIML-B", "CSE-A", "CSE-B",
   "CSBS", "CYS", "ECE-A", "ECE-B", "IT-A", "IT-B", "MECH", "RA"]

/-- Intent 0: absence words and "today". -/
def svcIntent0 (q : String) : Option SvcAction :=
  if (["absent", "leave", "not present", "missing", "away"].any (fun w => strContains q w))
      && strContains q "today" then
    some .absentToday
  else none

/-- Intent 1: schedule keywords, then the nested period/schedule split
(falling through when neither nested test holds, as in the source). -/
def svcIntent1 (q : String) : Option SvcAction :=
  if ["who has", "who is having", "who got", "classes today", "teaching today",
      "class today", "schedule today", "today class", "today schedule"].any
      (fun w => strContains q w) then
    if strContains q "c period" || strContains q "c programming" || strContains q "period" then
      some .classesToday
    else if strContains q "schedule" || strContains q "all" || strContains q "complete" then
      some .fullSchedule
    else none
  else none

/-- Intent 2: the five lab-program patterns, tried in order. -/
def svcIntent2 (q : String) : Option SvcAction :=
  [svcLab1RE, svcLab2RE, svcLab3RE, svcLab4RE, svcLab5RE].findSome?
    (fun r => (reSearchNum r q).map (fun n => SvcAction.labProgram n))

/-- Intent 3: session keywords as a gate, then the five session patterns. -/
def svcIntent3 (q : String) : Option SvcAction :=
  if ["ppt", "deck", "session", "slide", "presentation"].any (fun w => strContains q w) then
    [svcSes1RE, svcSes2RE, svcSes3RE, svcSes4RE, svcSes5RE].findSome?
      (fun r => (reSearchNum r q).map (fun n => SvcAction.sessionPpt n))
  else none

/-- Intent 4: "moodle" plus a week number (the same lab-program handler). -/
def svcIntent4 (q : String) : Option SvcAction :=
  if strContains q "moodle" then (reSearchNum svcWeekRE q).map (fun n => SvcAction.labProgram n)
  else none

/-- Intent 5: faculty keywords as a gate, then normalized substring
containment of every department code, including the single-word ones. -/
def svcIntent5 (q : String) : Option SvcAction :=
  if ["faculty", "teacher", "teaching", "instructor", "who"].any (fun w => strContains q w) then
    svcDeptCodes.findSome? (fun code =>
      if strContains (stripChars q) (stripChars (pyLower code)) then
        some (SvcAction.facultyByDept code)
      else none)
  else none

/-- Intent 6: a list keyword and a faculty keyword. -/
def svcIntent6 (q : String) : Option SvcAction :=
  if (["list", "show", "all", "every", "display"].any (fun w => strContains q w))
      && (["facult", "teacher", "instructor", "staff"].any (fun w => strContains q w)) then
    some .listFaculties
  else none

/-- Intent 7: teaching-history phrases. -/
def svcIntent7 (q : String) : Option SvcAction :=
  if ["what was taught", "what did", "recently taught",
      "recent class", "last class", "previous class",
      "teaching history", "class history"].any (fun w => strContains q w) then
    some .recentEntries
  else none

/-- Intent 8: a weekday name together with "schedule". -/
def svcIntent8 (q : String) : Option SvcAction :=
  ["monday", "tuesday", "wednesday", "thursday", "friday", "saturday", "sunday"].findSome?
    (fun d =>
      if strContains q d && strContains q "schedule" then
        some (SvcAction.daySchedule (pyCapitalize d))
      else none)

/-- Intent 9: help keywords. -/
def svcIntent9 (q : String) : Option SvcAction :=
  if ["help", "what can", "how to", "guide", "commands"].any (fun w => strContains q w) then
    some .helpMsg
  else none

/-- Intent 10: greeting keywords (substring test, as in the source). -/
def svcIntent10 (q : String) : Option SvcAction :=
  if ["hi", "hello", "hey", "greetings"].any (fun w => strContains q w) then some .greet
  else none

/-- `ChatbotService.process_question`: normalize, then the first intent whose
guard fires (the sequential early returns of the source), else the default. -/
def svcProcess (question : String) : SvcAction :=
  let q := pyStrip (pyLower question)
  (([svcIntent0 q, svcIntent1 q, svcIntent2 q, svcIntent3 q, svcIntent4 q,
     svcIntent5 q, svcIntent6 q, svcIntent7 q, svcIntent8 q, svcIntent9 q,
     svcIntent10 q].findSome? (fun x => x)).getD .notUnderstood)

/-! ## `chatbot_semantic.py` (`SemanticChatbotService.process_question`)

The sentence-embedding nearest-neighbour search (`model.encode` plus the
FAISS index, lines 191-207) is floating-point machine-learning code and is
abstracted as the `sem` argument: `none` models a best distance above the
0.8 confidence threshold, `some i` an accepted intent label.  The routing
and entity extraction that follow (lines 213-266) are embedded faithfully. -/

/-- The intent labels of the semantic index. -/
inductive SemIntent where
  | getScheduleToday
  | getCompleteSchedule
  | getAbsentFaculty
  | getLabProgram
  | getSessionPpt
  | getFacultyByDept
  | getFacultySchedule
  | listAllFaculty
  | getTeachingHistory
  | help
  | greeting
deriving DecidableEq

/-- The handler invocations reachable from the semantic dispatcher. -/
inductive SemAction where
  | classesToday
  | completeSchedule
  | absentFaculties
  | labProgram (weekNum : Nat)
  | askWeek
  | sessionPpt (sessionNum : Nat)
  | askSession
  | facultyByDept (code : String)
  | askDept
  | facultyScheduleByName (question : String)
  | listAll
  | recent
  | helpMsg
  | greet
  | notSure
deriving DecidableEq

/-- `re.search(r'\d+', question)`. -/
def firstNumber (s : String) : Option Nat :=
  reSearchNum .digits s

/-- The routing of `SemanticChatbotService.process_question` given the
(abstracted) outcome of the semantic search. -/
def semRoute (sem : Option SemIntent) (question : String) : SemAction :=
  match sem with
  | none => .notSure
  | some .getScheduleToday => .classesToday
  | some .getCompleteSchedule => .completeSchedule
  | some .getAbsentFaculty => .absentFaculties
  | some .getLabProgram =>
    match firstNumber question with
    | some n => .labProgram n
    | none => .askWeek
  | some .getSessionPpt =>
    match firstNumber question with
    | some n => .sessionPpt n
    | none => .askSession
  | some .getFacultyByDept =>
    match svcDeptCodes.findSome? (fun code =>
        if strContains (stripChars (pyLower question)) (stripChars (pyLower code)) then
          some code
        else none) with
    | some c => .facultyByDept c
    | none => .askDept
  | some .getFacultySchedule => .facultyScheduleByName question
  | some .listAllFaculty => .listAll
  | some .getTeachingHistory => .recent
  | some .help => .helpMsg
  | some .greeting => .greet

/-! ## Specification-level FAQ matcher (for the refinement claim) -/

/-- The best score over a catalog (0 when the catalog is empty). -/
def faqBestScore (q : String) (l : List FAQ) : Nat :=
  l.foldr (fun f acc => max (faqScore q f) acc) 0

/-- Modelled from the spec wording of the FAQ matcher: "Keep the single
highest-scoring candidate; ties keep the first encountered in catalog
order.  Accept only if the best score is at least the fixed minimum 10;
below threshold, return absent."  The first catalog entry attaining the
best score, when that score reaches 10. -/
def faqSpecMatch (q : String) (l : List FAQ) : Option FAQ :=
  if 10 ≤ faqBestScore q l then l.find? (fun f => faqScore q f == faqBestScore q l)
  else none

/-- The correct English ordinal suffix of a digit, for stating the
period-extraction property ("1st", "2nd", "3rd", "4th", ...). -/
def ordinalSuffix (n : Nat) : String :=
  if n == 1 then "st" else if n == 2 then "nd" else if n == 3 then "rd" else "th"

/-! ## Concrete fixtures for witnesses and counterexamples -/

/-- An empty data snapshot. -/
def emptyDb : Db := ⟨[], [], [], [], [], [], [], []⟩

/-- An active faculty member. -/
def fac1 : Faculty :=
  ⟨1, "Sathish Kumar", "sathish@college.edu", "9876543210", some "CSE-A", none, true⟩

/-- A snapshot with one active faculty member and nothing else: in
particular it has no daily entries at all. -/
def db1 : Db := ⟨[fac1], [], [], [], [], [], [], []⟩

/-- A date whose weekday resolves to Monday. -/
def pd0 : PyDate := ⟨0⟩

/-! ## Helper lemmas -/

theorem filter_eq_nil_of_false {α : Type} (p : α → Bool) :
    ∀ l : List α, (∀ a ∈ l, p a = false) → l.filter p = [] := by
  intro l h
  induction l with
  | nil => rfl
  | cons a t ih =>
    have ha := h a (List.mem_cons_self a t)
    simp only [List.filter, ha]
    exact ih (fun b hb => h b (List.mem_cons_of_mem a hb))

theorem facultyScanLoop_first (db : Db) (q dayName : String) :
    ∀ l : List Faculty, (∃ f ∈ l, facNameMatches q f = true) →
      ∃ f, f ∈ l ∧ facNameMatches q f = true ∧
        facultyScanLoop db q dayName l = some (getFacultyTodaySchedule db f dayName) := by
  intro l
  induction l with
  | nil => rintro ⟨f, hf, -⟩; exact absurd hf (List.not_mem_nil f)
  | cons a t ih =>
    rintro ⟨f, hf, hmatch⟩
    by_cases ha : facNameMatches q a = true
    · exact ⟨a, List.mem_cons_self a t, ha, by simp [facultyScanLoop, ha]⟩
    · have hft : f ∈ t := by
        rcases List.mem_cons.mp hf with h | h
        · exact absurd (h ▸ hmatch) ha
        · exact h
      obtain ⟨g, hg, hgm, hloop⟩ := ih ⟨f, hft, hmatch⟩
      refine ⟨g, List.mem_cons_of_mem a hg, hgm, ?_⟩
      simpa [facultyScanLoop, ha] using hloop

theorem dayLoop_first (db : Db) (q : String) :
    ∀ (l : List (String × String)) (i : Nat) (p : String × String),
      l.get? i = some p → strContains q p.1 = true →
      ∃ k pk, k ≤ i ∧ l.get? k = some pk ∧ strContains q pk.1 = true ∧
        (∀ m pm, m < k → l.get? m = some pm → strContains q pm.1 = false) ∧
        dayLoop db q l = some (getDaySchedule db pk.2) := by
  intro l
  induction l with
  | nil => intro i p hp _; simp at hp
  | cons a t ih =>
    intro i p hp hc
    by_cases ha : strContains q a.1 = true
    · refine ⟨0, a, Nat.zero_le i, rfl, ha, ?_, by simp [dayLoop, ha]⟩
      intro m pm hm _
      exact absurd hm (Nat.not_lt_zero m)
    · cases i with
      | zero =>
        have h' : a = p := by simpa using hp
        subst h'
        exact absurd hc ha
      | succ i' =>
        have hpt : t.get? i' = some p := by simpa using hp
        obtain ⟨k', pk, hk'i, hget, hpk, hmin, hloop⟩ := ih i' p hpt hc
        refine ⟨k' + 1, pk, Nat.succ_le_succ hk'i, by simpa using hget, hpk, ?_, ?_⟩
        · intro m pm hm hgm
          cases m with
          | zero =>
            have h' : a = pm := by simpa using hgm
            subst h'
            exact Bool.eq_false_iff.mpr (fun hx => ha hx)
          | succ m' =>
            exact hmin m' pm (Nat.lt_of_succ_lt_succ hm) (by simpa using hgm)
        · simpa [dayLoop, ha] using hloop

theorem faqLoop_eq (q : String) :
    ∀ (l : List FAQ) (best : Option FAQ) (bs : Nat),
      faqLoop q l best bs =
        if bs < faqBestScore q l then
          (l.find? (fun f => faqScore q f == faqBestScore q l), faqBestScore q l)
        else (best, bs) := by
  intro l
  induction l with
  | nil =>
    intro best bs
    simp [faqLoop, faqBestScore]
  | cons f rest ih =>
    intro best bs
    have hb : faqBestScore q (f :: rest) = max (faqScore q f) (faqBestScore q rest) := rfl
    by_cases h1 : bs < faqScore q f
    · rw [faqLoop, if_pos h1, ih, hb]
      by_cases h2 : faqScore q f < faqBestScore q rest
      · have hmax : max (faqScore q f) (faqBestScore q rest) = faqBestScore q rest :=
          Nat.max_eq_right (Nat.le_of_lt h2)
        have hne : (faqScore q f == faqBestScore q rest) = false := by
          simp only [beq_eq_false_iff_ne, ne_eq]
          omega
        rw [if_pos h2, hmax, if_pos (by omega : bs < faqBestScore q rest)]
        simp [List.find?, hne]
      · have h2' : faqBestScore q rest ≤ faqScore q f := by omega
        have hmax : max (faqScore q f) (faqBestScore q rest) = faqScore q f :=
          Nat.max_eq_left h2'
        rw [if_neg h2, hmax, if_pos h1]
        simp [List.find?]
    · rw [faqLoop, if_neg h1, ih, hb]
      have h1' : faqScore q f ≤ bs := by omega
      by_cases h2 : bs < faqBestScore q rest
      · have hmax : max (faqScore q f) (faqBestScore q rest) = faqBestScore q rest :=
          Nat.max_eq_right (by omega)
        have hne : (faqScore q f == faqBestScore q rest) = false := by
          simp only [beq_eq_false_iff_ne, ne_eq]
          omega
        rw [if_pos h2, hmax, if_pos h2]
        simp [List.find?, hne]
      · rw [if_neg h2, if_neg (by omega : ¬ bs < max (faqScore q f) (faqBestScore q rest))]

theorem faqBest_attained (q : String) :
    ∀ l : List FAQ, faqBestScore q l ≠ 0 →
      (l.find? (fun f => faqScore q f == faqBestScore q l)).isSome = true := by
  intro l
  induction l with
  | nil => intro h; exact absurd rfl h
  | cons f rest ih =>
    intro h
    have hb : faqBestScore q (f :: rest) = max (faqScore q f) (faqBestScore q rest) := rfl
    by_cases he : (faqScore q f == faqBestScore q (f :: rest)) = true
    · simp [List.find?, he]
    · have hne : faqScore q f ≠ faqBestScore q (f :: rest) := by
        simpa using he
      have hmax : faqBestScore q (f :: rest) = faqBestScore q rest := by
        rcases max_choice (faqScore q f) (faqBestScore q rest) with hc | hc
        · exact absurd (hb.trans hc).symm hne
        · exact hb.trans hc
      have hf : (faqScore q f == faqBestScore q (f :: rest)) = false :=
        Bool.eq_false_iff.mpr (fun hx => he hx)
      have : (rest.find? (fun g => faqScore q g == faqBestScore q rest)).isSome = true :=
        ih (by omega)
      rw [hmax] at hf ⊢
      simpa [List.find?, hf] using this

/-! ## Claims -/

/-- C1.  Department short-code matching and word boundaries.  The claim is
right about `FAQChatbot._check_department_query` (chatbot.py): its single-code
phase fires exactly when a code occurs word-bounded, and the question
"programming" matches no department at all.  But the cited legacy dispatcher
`ChatbotService.process_question` (chatbot_service.py, intent 5) matches every
code, including "RA", by normalized substring containment, so the question
"who teaches programming" resolves to the department handler for "RA" purely
via the substring "ra" of "programming" — the code bug this claim exposes. -/
theorem claim1_short_code_word_boundary :
    (∀ (db : Db) (day q : String) (l : List String),
      (deptSingleLoop db day q l).isSome = l.any (fun c => wordBoundedSub (pyLower c) q)) ∧
    (∀ (db : Db) (day : String), checkDepartmentQuery db "programming" day = none) ∧
    svcProcess "who teaches programming" = SvcAction.facultyByDept "RA" := by
  refine ⟨?_, ?_, ?_⟩
  · intro db day q l
    induction l with
    | nil => rfl
    | cons c rest ih =>
      by_cases hc : wordBoundedSub (pyLower c) q = true
      · simp [deptSingleLoop, hc]
      · have hc' : wordBoundedSub (pyLower c) q = false :=
          Bool.eq_false_iff.mpr (fun hx => hc hx)
        simp [deptSingleLoop, hc', ih]
  · intro db day
    rfl
  · rfl

/-- C4.  The FAQ matcher scores an entry 1000 on exact (lowercased) match,
500 on substring containment either way, and otherwise ten per filtered
common token plus five per filtered query token occurring in the answer
("filtered" being the matcher's own filter: tokens longer than two
characters and not stop words); and it returns the first catalog entry
attaining the highest score when that score reaches 10, absent otherwise
(`faqSpecMatch` is modelled from the spec's wording). -/
theorem claim4_faq_scoring_matches_spec :
    ∀ (q : String) (faqs : List FAQ),
      (∀ f : FAQ, faqScore q f =
        (if q == pyLower f.question then 1000
         else if strContains q (pyLower f.question) || strContains (pyLower f.question) q then 500
         else
           10 * ((faqFilterWords q).filter
               (fun w => (faqFilterWords (pyLower f.question)).contains w)).length +
           5 * ((faqFilterWords q).filter
               (fun w => strContains (pyLower f.answer) w)).length)) ∧
      searchFaqs q faqs = (faqSpecMatch q faqs).map renderFaq := by
  intro q faqs
  constructor
  · intro f; rfl
  · cases faqs with
    | nil => rfl
    | cons f rest =>
      show (match faqLoop q (f :: rest) none 0 with
            | (some g, bs) => if 10 ≤ bs then some (renderFaq g) else none
            | (none, _) => none) = (faqSpecMatch q (f :: rest)).map renderFaq
      rw [faqLoop_eq]
      by_cases h0 : 0 < faqBestScore q (f :: rest)
      · rw [if_pos h0]
        have hs := faqBest_attained q (f :: rest) (by omega)
        obtain ⟨g, hg⟩ := Option.isSome_iff_exists.mp hs
        rw [hg]
        by_cases h10 : 10 ≤ faqBestScore q (f :: rest)
        · simp [faqSpecMatch, hg, h10]
        · simp [faqSpecMatch, hg, h10]
      · rw [if_neg h0]
        have h10 : ¬ 10 ≤ faqBestScore q (f :: rest) := by omega
        simp [faqSpecMatch, h10]

/-- C6.  For every digit 1–9, the period extractor of
`_check_period_query` recovers the digit from both the keyword form
("period n") and the trailing-ordinal form ("nth period" with the correct
English ordinal suffix), and the period handler fires with that value. -/
theorem claim6_period_extraction :
    ∀ (db : Db) (day : String) (n : Nat), 1 ≤ n → n ≤ 9 →
      checkPeriodQuery db ("period " ++ toString n) day =
        some (getPeriodSchedule db n day) ∧
      checkPeriodQuery db (toString n ++ ordinalSuffix n ++ " period") day =
        some (getPeriodSchedule db n day) := by
  intro db day n h1 h9
  interval_cases n <;> exact ⟨rfl, rfl⟩

/-- Witness for C6 at `n = 3`. -/
theorem claim6_period_extraction_witness :
    checkPeriodQuery emptyDb ("period " ++ toString 3) "Monday" =
      some (getPeriodSchedule emptyDb 3 "Monday") ∧
    checkPeriodQuery emptyDb (toString 3 ++ ordinalSuffix 3 ++ " period") "Monday" =
      some (getPeriodSchedule emptyDb 3 "Monday") :=
  claim6_period_extraction emptyDb "Monday" 3 (by decide) (by decide)

/-- C9.  The FAQ matcher is deterministic: two runs on the same question
and the same catalog return the same result.  (In this embedding
`_search_faqs` is a pure function of exactly these two inputs, which is the
content of the claim.) -/
theorem claim9_faq_matcher_deterministic :
    ∀ (q1 q2 : String) (c1 c2 : List FAQ),
      q1 = q2 → c1 = c2 → searchFaqs q1 c1 = searchFaqs q2 c2 := by
  intro q1 q2 c1 c2 hq hc
  rw [hq, hc]

/-- Witness for C9 at a concrete question and catalog. -/
theorem claim9_faq_matcher_deterministic_witness :
    searchFaqs "how to join" [⟨"How do I join the course", "enroll on moodle", true⟩] =
      searchFaqs "how to join" [⟨"How do I join the course", "enroll on moodle", true⟩] :=
  claim9_faq_matcher_deterministic _ _ _ _ rfl rfl

/-- Counterexample to C2 as stated: the greeting rule runs before the
faculty-name rule, so a question that starts with a greeting word but also
contains an active faculty member's name part and the keyword "schedule"
gets the greeting response, not the faculty-specific schedule. -/
theorem claim2_greeting_preempts_faculty_query :
    processQuestion db1 pd0 "hey sathish schedule" = greetingResponse ∧
    fac1 ∈ db1.faculties ∧ fac1.isActive = true ∧
    (pySplit (pyLower fac1.name)).contains "sathish" = true ∧
    decide (2 < "sathish".length) = true ∧
    strContains "hey sathish schedule" "sathish" = true ∧
    strContains "hey sathish schedule" "schedule" = true ∧
    processQuestion db1 pd0 "hey sathish schedule" ≠
      getFacultyTodaySchedule db1 fac1 (getDayName pd0) := by
  decide

/-- C2 (amended): unless the normalized question is a greeting or a help
command, a question containing an active faculty member's name part longer
than two characters (and, as in the claim, the keyword "schedule") resolves
to the faculty-specific handler `_get_faculty_today_schedule`, never the
generic all-classes response. -/
theorem claim2_faculty_name_beats_generic_schedule :
    ∀ (db : Db) (t : PyDate) (question : String),
      isGreeting (pyStrip (pyLower question)) = false →
      isHelpCmd (pyStrip (pyLower question)) = false →
      strContains (pyStrip (pyLower question)) "schedule" = true →
      (∃ f, f ∈ db.faculties ∧ f.isActive = true ∧
        facNameMatches (pyStrip (pyLower question)) f = true) →
      ∃ f, f ∈ db.faculties ∧ f.isActive = true ∧
        facNameMatches (pyStrip (pyLower question)) f = true ∧
        processQuestion db t question = getFacultyTodaySchedule db f (getDayName t) := by
  intro db t question h1 h2 _ hex
  obtain ⟨f, hf, hact, hm⟩ := hex
  have hex' : ∃ g ∈ db.faculties.filter (fun f => f.isActive),
      facNameMatches (pyStrip (pyLower question)) g = true :=
    ⟨f, List.mem_filter.mpr ⟨hf, hact⟩, hm⟩
  obtain ⟨g, hg, hgm, hloop⟩ :=
    facultyScanLoop_first db (pyStrip (pyLower question)) (getDayName t) _ hex'
  have hg' := List.mem_filter.mp hg
  refine ⟨g, hg'.1, hg'.2, hgm, ?_⟩
  unfold processQuestion processQuestionCore
  simp only [h1, h2, Bool.false_eq_true, if_false, checkFacultyNameQuery, hloop]

/-- Witness for C2 (amended) at a concrete snapshot and question. -/
theorem claim2_faculty_name_beats_generic_schedule_witness :
    ∃ f, f ∈ db1.faculties ∧ f.isActive = true ∧
      facNameMatches (pyStrip (pyLower "when does sathish have schedule")) f = true ∧
      processQuestion db1 pd0 "when does sathish have schedule" =
        getFacultyTodaySchedule db1 f (getDayName pd0) :=
  claim2_faculty_name_beats_generic_schedule db1 pd0 "when does sathish have schedule"
    (by decide) (by decide) (by decide) ⟨fac1, by decide, by decide, by decide⟩

/-- `_get_absent_faculty` on a date with no daily entry marked absent yields
the "all present" message. -/
theorem getAbsentFaculty_all_present (db : Db) (t : PyDate) (dayName : String)
    (h : ∀ e ∈ db.dailyEntries, e.date = t → e.isAbsent = false) :
    getAbsentFaculty db t dayName =
      emCheck ++ " **No absentees today (" ++ dayName ++
        ")!**\n\nAll faculty members are present." := by
  have hfil : db.dailyEntries.filter (fun e => e.date == t && e.isAbsent) = [] := by
    apply filter_eq_nil_of_false
    intro e he
    by_cases hd : e.date = t
    · simp [h e he hd]
    · have hb : (e.date == t) = false := beq_eq_false_iff_ne.mpr hd
      simp [hb]
  simp [getAbsentFaculty, hfil]

/-- Counterexample to C5 as stated: on a snapshot with no daily entries at
all, the absentee query is answered with the "all present" message, which
the claim forbids, and no "daily entries filled yet" wording occurs. -/
theorem claim5_absent_query_counterexample :
    db1.dailyEntries = [] ∧
    processQuestion db1 pd0 "who is absent today" =
      emCheck ++ " **No absentees today (Monday)!**\n\nAll faculty members are present." ∧
    strContains (processQuestion db1 pd0 "who is absent today")
      "All faculty members are present" = true ∧
    strContains (processQuestion db1 pd0 "who is absent today") "daily entries" = false ∧
    strContains (processQuestion db1 pd0 "who is absent today") "filled" = false := by
  decide

/-- C5 (amended): for an absentee query on a date for which no daily entry
is marked absent (in particular, a date with no daily entries at all), the
answer is the "No absentees today — all faculty members are present"
message; the code has no "no daily entries filled yet" message. -/
theorem claim5_no_daily_entries_reports_all_present :
    ∀ (db : Db) (t : PyDate) (question : String),
      isGreeting (pyStrip (pyLower question)) = false →
      isHelpCmd (pyStrip (pyLower question)) = false →
      checkFacultyNameQuery db (pyStrip (pyLower question)) (getDayName t) = none →
      checkDepartmentQuery db (pyStrip (pyLower question)) (getDayName t) = none →
      checkLabQuery db (pyStrip (pyLower question)) (getDayName t) = none →
      checkTheoryQuery db (pyStrip (pyLower question)) (getDayName t) = none →
      isTopicsQuery (pyStrip (pyLower question)) = false →
      isAbsentQuery (pyStrip (pyLower question)) = true →
      (∀ e ∈ db.dailyEntries, e.date = t → e.isAbsent = false) →
      processQuestion db t question =
        emCheck ++ " **No absentees today (" ++ getDayName t ++
          ")!**\n\nAll faculty members are present." := by
  intro db t question h1 h2 h3 h4 h5 h6 h7 h8 hno
  unfold processQuestion processQuestionCore
  simp only [h1, h2, h3, h4, h5, h6, h7, h8, Bool.false_eq_true, if_false, if_true]
  exact getAbsentFaculty_all_present db t (getDayName t) hno

/-- Witness for C5 (amended) at a concrete snapshot with no daily entries. -/
theorem claim5_no_daily_entries_reports_all_present_witness :
    processQuestion db1 pd0 "who is absent today" =
      emCheck ++ " **No absentees today (" ++ getDayName pd0 ++
        ")!**\n\nAll faculty members are present." :=
  claim5_no_daily_entries_reports_all_present db1 pd0 "who is absent today"
    (by decide) (by decide) (by decide) (by decide) (by decide) (by decide)
    (by decide) (by decide) (by decide)

/-- Counterexample to C7 as stated: an out-of-domain period (15) gets the
same generic "no classes" empty-result message as any in-domain empty
period, not a validation message about the number being out of range (no
"range", "valid" or "1-9" wording occurs). -/
theorem claim7_out_of_range_counterexample :
    processQuestion emptyDb pd0 "period 15" =
      emCal ++ " No C Programming classes in **Period 15** on **Monday**." ∧
    getPeriodSchedule emptyDb 15 "Monday" =
      emCal ++ " No C Programming classes in **Period 15** on **Monday**." ∧
    getPeriodSchedule emptyDb 5 "Monday" =
      emCal ++ " No C Programming classes in **Period 5** on **Monday**." ∧
    strContains (getPeriodSchedule emptyDb 15 "Monday") "range" = false ∧
    strContains (getPeriodSchedule emptyDb 15 "Monday") "valid" = false ∧
    strContains (getPeriodSchedule emptyDb 15 "Monday") "1-9" = false := by
  decide

/-- C7 (amended): for any extracted period number with no matching
timetable rows — in particular every number outside 1–9 — the period
handler returns the generic empty-result message naming the period and the
day; being a total function, it raises no exception for any integer.  There
is no dedicated out-of-range validation message. -/
theorem claim7_out_of_range_period_generic_message :
    ∀ (db : Db) (dayName : String) (p : Nat),
      (∀ e ∈ db.timetable, (e.day == dayName && e.period == p) = false) →
      getPeriodSchedule db p dayName =
        emCal ++ " No C Programming classes in **Period " ++ toString p ++
          "** on **" ++ dayName ++ "**." := by
  intro db dayName p h
  have hfil : db.timetable.filter (fun e => e.day == dayName && e.period == p) = [] :=
    filter_eq_nil_of_false _ _ h
  simp [getPeriodSchedule, joinTFDWhere, hfil, sortByKey]

/-- Witness for C7 (amended) at period 15 on an empty snapshot. -/
theorem claim7_out_of_range_period_generic_message_witness :
    getPeriodSchedule emptyDb 15 "Monday" =
      emCal ++ " No C Programming classes in **Period " ++ toString 15 ++
        "** on **" ++ "Monday" ++ "**." :=
  claim7_out_of_range_period_generic_message emptyDb "Monday" 15 (by decide)

/-- C10.  When a question contains two (or more) weekday names, the day
handler answers for the day whose canonical index (Monday..Sunday order of
the `days` dict) is least among the days present — in particular at most
the smaller of the two indices, regardless of reading order in the
question. -/
theorem claim10_day_query_canonical_order :
    ∀ (db : Db) (q : String) (i j : Nat) (pa pb : String × String),
      i < j →
      dayPairs.get? i = some pa → strContains q pa.1 = true →
      dayPairs.get? j = some pb → strContains q pb.1 = true →
      ∃ k pk, k ≤ i ∧ dayPairs.get? k = some pk ∧ strContains q pk.1 = true ∧
        (∀ m pm, m < k → dayPairs.get? m = some pm → strContains q pm.1 = false) ∧
        checkDayQuery db q = some (getDaySchedule db pk.2) := by
  intro db q i j pa pb _ hgi hci _ _
  obtain ⟨k, pk, hk, hget, hc, hmin, hloop⟩ := dayLoop_first db q dayPairs i pa hgi hci
  exact ⟨k, pk, hk, hget, hc, hmin, hloop⟩

/-- Witness for C10: "tuesday" is mentioned first in reading order, yet the
schedule returned is Monday's. -/
theorem claim10_day_query_canonical_order_witness :
    ∃ k pk, k ≤ 0 ∧ dayPairs.get? k = some pk ∧
      strContains "is it tuesday or monday" pk.1 = true ∧
      (∀ m pm, m < k → dayPairs.get? m = some pm →
        strContains "is it tuesday or monday" pm.1 = false) ∧
      checkDayQuery emptyDb "is it tuesday or monday" =
        some (getDaySchedule emptyDb pk.2) :=
  claim10_day_query_canonical_order emptyDb "is it tuesday or monday" 0 1
    ("monday", "Monday") ("tuesday", "Tuesday")
    (by decide) (by decide) (by decide) (by decide) (by decide)

/-- When no rule of the cascade fires, `process_question` reduces to the FAQ
lookup followed by the default response. -/
theorem processQuestion_fallthrough (db : Db) (t : PyDate) (question : String)
    (h1 : isGreeting (pyStrip (pyLower question)) = false)
    (h2 : isHelpCmd (pyStrip (pyLower question)) = false)
    (h3 : checkFacultyNameQuery db (pyStrip (pyLower question)) (getDayName t) = none)
    (h4 : checkDepartmentQuery db (pyStrip (pyLower question)) (getDayName t) = none)
    (h5 : checkLabQuery db (pyStrip (pyLower question)) (getDayName t) = none)
    (h6 : checkTheoryQuery db (pyStrip (pyLower question)) (getDayName t) = none)
    (h7 : isTopicsQuery (pyStrip (pyLower question)) = false)
    (h8 : isAbsentQuery (pyStrip (pyLower question)) = false)
    (h9 : isSummaryQuery (pyStrip (pyLower question)) = false)
    (h10 : isGeneralScheduleQuery (pyStrip (pyLower question)) = false)
    (h11 : isListFacultyQuery (pyStrip (pyLower question)) = false)
    (h12 : reSearchNum labRE (pyStrip (pyLower question)) = none)
    (h13 : reSearchNum sessionRE (pyStrip (pyLower question)) = none)
    (h14 : checkPeriodQuery db (pyStrip (pyLower question)) (getDayName t) = none)
    (h15 : checkDayQuery db (pyStrip (pyLower question)) = none) :
    processQuestion db t question =
      match searchFaqsDb db (pyStrip (pyLower question)) with
      | some r => r
      | none => defaultResponse := by
  unfold processQuestion processQuestionCore
  simp only [h1, h2, h3, h4, h5, h6, h7, h8, h9, h10, h11, h12, h13, h14, h15,
    Bool.false_eq_true, if_false]

/-- Counterexample to C3 as stated: the semantic matcher is consulted first,
not last.  `SemanticChatbotService.process_question` routes on the semantic
outcome even for "list all faculties", a question the deterministic
list-faculty rule of the cascade matches — with an accepted greeting
neighbour it answers the greeting, with a rejected one the not-sure text,
so the semantic stage decides before any deterministic rule or FAQ lookup
runs, and the rule cascade of `FAQChatbot` contains no semantic stage at
all. -/
theorem claim3_semantic_consulted_first :
    isListFacultyQuery "list all faculties" = true ∧
    semRoute (some SemIntent.greeting) "list all faculties" = SemAction.greet ∧
    semRoute none "list all faculties" = SemAction.notSure ∧
    SemAction.greet ≠ SemAction.notSure := by
  decide

/-- C3 (amended): in the `FAQChatbot` dispatcher, for every question on
which no cascade rule fires, the FAQ matcher is consulted and a hit is
returned; if it returns absent the default response is produced directly —
there is no semantic stage in that dispatcher.  The semantic matcher
belongs to the separate `SemanticChatbotService` and is consulted before
any deterministic rule: when it rejects (distance above threshold) the
service answers not-sure without ever consulting rules or FAQs. -/
theorem claim3_faq_then_default :
    (∀ (db : Db) (t : PyDate) (question : String),
      isGreeting (pyStrip (pyLower question)) = false →
      isHelpCmd (pyStrip (pyLower question)) = false →
      checkFacultyNameQuery db (pyStrip (pyLower question)) (getDayName t) = none →
      checkDepartmentQuery db (pyStrip (pyLower question)) (getDayName t) = none →
      checkLabQuery db (pyStrip (pyLower question)) (getDayName t) = none →
      checkTheoryQuery db (pyStrip (pyLower question)) (getDayName t) = none →
      isTopicsQuery (pyStrip (pyLower question)) = false →
      isAbsentQuery (pyStrip (pyLower question)) = false →
      isSummaryQuery (pyStrip (pyLower question)) = false →
      isGeneralScheduleQuery (pyStrip (pyLower question)) = false →
      isListFacultyQuery (pyStrip (pyLower question)) = false →
      reSearchNum labRE (pyStrip (pyLower question)) = none →
      reSearchNum sessionRE (pyStrip (pyLower question)) = none →
      checkPeriodQuery db (pyStrip (pyLower question)) (getDayName t) = none →
      checkDayQuery db (pyStrip (pyLower question)) = none →
      processQuestion db t question =
        match searchFaqsDb db (pyStrip (pyLower question)) with
        | some r => r
        | none => defaultResponse) ∧
    (∀ q : String, semRoute none q = SemAction.notSure) := by
  constructor
  · intro db t question h1 h2 h3 h4 h5 h6 h7 h8 h9 h10 h11 h12 h13 h14 h15
    exact processQuestion_fallthrough db t question
      h1 h2 h3 h4 h5 h6 h7 h8 h9 h10 h11 h12 h13 h14 h15
  · intro q
    rfl

/-- Witness for C3 (amended) at a concrete question on which nothing fires. -/
theorem claim3_faq_then_default_witness :
    processQuestion emptyDb pd0 "xyzzy" =
      match searchFaqsDb emptyDb (pyStrip (pyLower "xyzzy")) with
      | some r => r
      | none => defaultResponse :=
  claim3_faq_then_default.1 emptyDb pd0 "xyzzy"
    (by decide) (by decide) (by decide) (by decide) (by decide) (by decide)
    (by decide) (by decide) (by decide) (by decide) (by decide) (by decide)
    (by decide) (by decide) (by decide)

/-- Counterexample to C8 as stated: the default response is a fixed string
that does not contain the resolved weekday name (here Monday) — nor any
weekday name at all. -/
theorem claim8_default_response_counterexample :
    getDayName pd0 = "Monday" ∧
    processQuestion emptyDb pd0 "xyzzy" = defaultResponse ∧
    strContains defaultResponse "Monday" = false ∧
    (pyDays.all (fun d => !(strContains defaultResponse d))) = true := by
  decide

/-- C8 (amended): for every question on which no rule and no FAQ entry
fires, the answer is the fixed default response, which contains a short
list of example questions ("Today's schedule", "Faculty information",
"Lab programs", "Session materials", and the pointer to **help**) but not
the resolved weekday name. -/
theorem claim8_default_response_examples :
    ∀ (db : Db) (t : PyDate) (question : String),
      isGreeting (pyStrip (pyLower question)) = false →
      isHelpCmd (pyStrip (pyLower question)) = false →
      checkFacultyNameQuery db (pyStrip (pyLower question)) (getDayName t) = none →
      checkDepartmentQuery db (pyStrip (pyLower question)) (getDayName t) = none →
      checkLabQuery db (pyStrip (pyLower question)) (getDayName t) = none →
      checkTheoryQuery db (pyStrip (pyLower question)) (getDayName t) = none →
      isTopicsQuery (pyStrip (pyLower question)) = false →
      isAbsentQuery (pyStrip (pyLower question)) = false →
      isSummaryQuery (pyStrip (pyLower question)) = false →
      isGeneralScheduleQuery (pyStrip (pyLower question)) = false →
      isListFacultyQuery (pyStrip (pyLower question)) = false →
      reSearchNum labRE (pyStrip (pyLower question)) = none →
      reSearchNum sessionRE (pyStrip (pyLower question)) = none →
      checkPeriodQuery db (pyStrip (pyLower question)) (getDayName t) = none →
      checkDayQuery db (pyStrip (pyLower question)) = none →
      searchFaqsDb db (pyStrip (pyLower question)) = none →
      processQuestion db t question = defaultResponse ∧
      strContains defaultResponse "Today's schedule" = true ∧
      strContains defaultResponse "Faculty information" = true ∧
      strContains defaultResponse "Lab programs" = true ∧
      strContains defaultResponse "Session materials" = true ∧
      strContains defaultResponse "**help**" = true := by
  intro db t question h1 h2 h3 h4 h5 h6 h7 h8 h9 h10 h11 h12 h13 h14 h15 h16
  refine ⟨?_, by decide, by decide, by decide, by decide, by decide⟩
  rw [processQuestion_fallthrough db t question
    h1 h2 h3 h4 h5 h6 h7 h8 h9 h10 h11 h12 h13 h14 h15, h16]

/-- Witness for C8 (amended) at a concrete question on which nothing fires. -/
theorem claim8_default_response_examples_witness :
    processQuestion emptyDb pd0 "xyzzy" = defaultResponse ∧
    strContains defaultResponse "Today's schedule" = true ∧
    strContains defaultResponse "Faculty information" = true ∧
    strContains defaultResponse "Lab programs" = true ∧
    strContains defaultResponse "Session materials" = true ∧
    strContains defaultResponse "**help**" = true :=
  claim8_default_response_examples emptyDb pd0 "xyzzy"
    (by decide) (by decide) (by decide) (by decide) (by decide) (by decide)
    (by decide) (by decide) (by decide) (by decide) (by decide) (by decide)
    (by decide) (by decide) (by decide) (by decide)
